import Mathlib

/-!
Shallow embedding of the relib frontend graph code: the filter layer
(graph-filter.js), the data loading layer (graph-data.js) and the API
client conversion (api-client.js).  JavaScript numbers are modelled as
rationals, JavaScript `undefined` as `Option.none`, and `Math.random`
as an explicit stream of rationals consumed in call order.
-/

/-- State of one node as held in the vis.js DataSet, as far as the
filter layer touches it: its id, its displayed label (`none` models
JavaScript `undefined`), its hidden flag and the `savedLabel` side slot
used by graph-filter.js. -/
structure NodeState where
  id : String
  label : Option String
  hidden : Bool
  savedLabel : Option String
deriving DecidableEq

/-- The node collection together with the `filterActive` global of
graph-data.js. -/
structure FilterState where
  nodes : List NodeState
  filterActive : Bool
deriving DecidableEq

/-- Body of the hiding loop of `filterHighlight` in graph-filter.js:
hide the node and, when no label is saved yet, move the label into the
saved slot and blank the label. -/
def hideAndSaveLabel (n : NodeState) : NodeState :=
  if n.savedLabel = none then
    { n with hidden := true, savedLabel := n.label, label := none }
  else
    { n with hidden := true }

/-- Body of the selected-node loop and of the reset loop of
`filterHighlight` in graph-filter.js (the two loop bodies are
identical): show the node and, when a label is saved, restore it and
clear the slot. -/
def showAndRestoreLabel (n : NodeState) : NodeState :=
  match n.savedLabel with
  | some s => { n with hidden := false, label := some s, savedLabel := none }
  | none => { n with hidden := false }

/-- `filterHighlight` from graph-filter.js.  With a non-empty selection
it hides and label-blanks every node, then un-hides and label-restores
the selected ones and sets `filterActive`.  With an empty selection it
resets every node and clears `filterActive`, but only when a filter is
active; otherwise the node collection is written back unchanged. -/
def filterHighlight (selected : List String) (s : FilterState) : FilterState :=
  if 0 < selected.length then
    { nodes := s.nodes.map (fun n =>
        if selected.contains n.id then showAndRestoreLabel (hideAndSaveLabel n)
        else hideAndSaveLabel n),
      filterActive := true }
  else if s.filterActive then
    { nodes := s.nodes.map showAndRestoreLabel, filterActive := false }
  else
    s

/-- One hard-coded statement object from `loadGraphDataLocal` in
graph-data.js. -/
structure LocalStatement where
  id : String
  label : String
  content : String
deriving DecidableEq

/-- The `provaxStatements` array of graph-data.js. -/
def provaxStatements : List LocalStatement :=
  [⟨"provax1", "Vaccines save lives",
    "Vaccines have been scientifically proven to save millions of lives worldwide"⟩,
   ⟨"provax2", "Herd immunity protects everyone",
    "High vaccination rates create herd immunity that protects vulnerable populations"⟩,
   ⟨"provax3", "Vaccines undergo rigorous testing",
    "All vaccines undergo extensive clinical trials to ensure safety and efficacy"⟩,
   ⟨"provax4", "Side effects are rare",
    "Serious vaccine side effects are extremely rare compared to disease complications"⟩,
   ⟨"provax5", "Scientific consensus supports vaccines",
    "The global scientific community strongly supports vaccination programs"⟩,
   ⟨"provax6", "Vaccines eliminated smallpox",
    "Vaccination successfully eliminated smallpox from the world"⟩]

/-- The `antivaxStatements` array of graph-data.js. -/
def antivaxStatements : List LocalStatement :=
  [⟨"antivax1", "Vaccines contain toxins",
    "Vaccines contain dangerous chemicals and toxins that harm the body"⟩,
   ⟨"antivax2", "Natural immunity is better",
    "Natural immunity from getting sick is superior to vaccine-induced immunity"⟩,
   ⟨"antivax3", "Vaccines cause autism",
    "There\x27s a link between childhood vaccines and autism development"⟩,
   ⟨"antivax4", "Big pharma conspiracy",
    "Pharmaceutical companies hide vaccine dangers for profit"⟩,
   ⟨"antivax5", "Government control",
    "Mandatory vaccines are government overreach and violation of freedom"⟩,
   ⟨"antivax6", "Alternative health remedies",
    "Natural remedies and healthy lifestyle are better than vaccines"⟩,
   ⟨"antivax7", "Vaccine injuries unreported",
    "Most vaccine injuries go unreported and compensation is difficult"⟩]

/-- The `hesitancyStatements` array of graph-data.js. -/
def hesitancyStatements : List LocalStatement :=
  [⟨"hesitancy1", "Need more research",
    "We need more long-term studies on vaccine effects"⟩,
   ⟨"hesitancy2", "Individual risk assessment",
    "People should assess their personal risk before vaccination"⟩,
   ⟨"hesitancy3", "Transparency concerns",
    "More transparency needed about vaccine development and ingredients"⟩,
   ⟨"hesitancy4", "Medical exemptions",
    "Some people have legitimate medical reasons to avoid certain vaccines"⟩,
   ⟨"hesitancy5", "Timing concerns",
    "Concerned about timing and number of vaccines given at once"⟩]

/-- A node object in the vis.js node dataset built by graph-data.js.
The constant `font` object is omitted: it is the same on every node. -/
structure VisNode where
  id : String
  label : String
  content : Option String
  group : ℕ
  shape : String
  size : ℚ
  color : String
deriving DecidableEq

/-- The random color expression of the antivax branch of
`loadGraphDataLocal`: three successive `Math.random()` draws `r k`,
`r (k + 1)`, `r (k + 2)` scaled, floored and interpolated into an rgb
string. -/
def antivaxColor (r : ℕ → ℚ) (k : ℕ) : String :=
  "rgb(" ++ toString (200 + Int.floor (r k * 55)) ++ ", " ++
    toString (20 + Int.floor (r (k + 1) * 40)) ++ ", " ++
    toString (20 + Int.floor (r (k + 2) * 30)) ++ ")"

/-- The provax branch of the node-building loops of
`loadGraphDataLocal`: group 1, fixed green color, initial size 5. -/
def provaxNode (s : LocalStatement) : VisNode :=
  { id := s.id, label := s.label, content := some s.content, group := 1,
    shape := "dot", size := 5, color := "#34A853" }

/-- The hesitancy branch of the node-building loops of
`loadGraphDataLocal`: group 3, fixed amber color, initial size 5. -/
def hesitancyNode (s : LocalStatement) : VisNode :=
  { id := s.id, label := s.label, content := some s.content, group := 3,
    shape := "dot", size := 5, color := "#FBBC05" }

/-- The antivax branch of the node-building loops of
`loadGraphDataLocal`: group 2, initial size 5, and a color drawn from
the `Math.random` stream, three draws per node in iteration order. -/
def antivaxNodes (r : ℕ → ℚ) (k : ℕ) : List LocalStatement → List VisNode
  | [] => []
  | s :: rest =>
      { id := s.id, label := s.label, content := some s.content, group := 2,
        shape := "dot", size := 5, color := antivaxColor r k } ::
        antivaxNodes r (k + 3) rest

/-- The `nodeData` array of `loadGraphDataLocal`: provax nodes, then
antivax nodes, then hesitancy nodes, in push order. -/
def nodeData (r : ℕ → ℚ) : List VisNode :=
  provaxStatements.map provaxNode ++ antivaxNodes r 0 antivaxStatements ++
    hesitancyStatements.map hesitancyNode

/-- One entry of the hard-coded `edgeList` of `loadGraphDataLocal`. -/
structure LocalEdge where
  «from» : String
  «to» : String
  similarity : ℚ
deriving DecidableEq

/-- The hard-coded `edgeList` of `loadGraphDataLocal`, with its cosine
similarity values, in source order. -/
def edgeList : List LocalEdge :=
  [⟨"provax1", "provax2", 0.8⟩,
   ⟨"provax1", "provax3", 0.7⟩,
   ⟨"provax1", "provax4", 0.8⟩,
   ⟨"provax1", "provax5", 0.9⟩,
   ⟨"provax1", "provax6", 0.8⟩,
   ⟨"antivax1", "antivax2", 0.51⟩,
   ⟨"antivax1", "antivax3", 0.5⟩,
   ⟨"antivax1", "antivax4", 0.3⟩,
   ⟨"antivax2", "antivax5", 0.23⟩,
   ⟨"antivax2", "antivax6", 0.35⟩,
   ⟨"antivax3", "antivax7", 0.3⟩,
   ⟨"hesitancy1", "provax3", 0.42⟩,
   ⟨"hesitancy3", "provax3", 0.56⟩,
   ⟨"hesitancy4", "provax4", 0.62⟩,
   ⟨"hesitancy5", "provax3", 0.45⟩,
   ⟨"hesitancy1", "antivax7", 0.52⟩,
   ⟨"hesitancy2", "antivax2", 0.48⟩,
   ⟨"hesitancy1", "hesitancy3", 0.67⟩,
   ⟨"hesitancy2", "hesitancy4", 0.72⟩,
   ⟨"hesitancy3", "hesitancy5", 0.64⟩,
   ⟨"hesitancy2", "hesitancy3", 0.51⟩]

/-- `calculateNodeSize` from graph-data.js: base size 5, increased by
1.5 per connection. -/
def calculateNodeSize (connections : ℕ) : ℚ :=
  5 + (connections : ℚ) * 1.5

/-- The value of the `nodeConnections` tally for `id` after the edge
loop of `loadGraphDataLocal` has processed the whole hard-coded edge
list: the number of occurrences of `id` as either endpoint. -/
def nodeConnections (id : String) : ℕ :=
  (edgeList.filter (fun e => e.«from» == id)).length +
    (edgeList.filter (fun e => e.«to» == id)).length

/-- JavaScript `x.toFixed(2)` on a non-negative number: round to the
nearest hundredth and print with exactly two decimal digits. -/
def toFixed2 (q : ℚ) : String :=
  let n : ℤ := round (q * 100)
  toString (n / 100) ++ "." ++
    (if n % 100 < 10 then "0" ++ toString (n % 100) else toString (n % 100))

/-- An edge object in the vis.js edge dataset. -/
structure VisEdge where
  «from» : String
  «to» : String
  width : ℚ
  title : String
  value : ℚ
deriving DecidableEq

/-- The edge mapping of the edge loop of `loadGraphDataLocal`: width
is `similarity * 3` and the tooltip shows the similarity to two
decimals. -/
def localEdgeToVis (e : LocalEdge) : VisEdge :=
  { «from» := e.«from», «to» := e.«to», width := e.similarity * 3,
    title := "Similarity: " ++ toFixed2 e.similarity, value := e.similarity }

/-- The `edgeData` array of `loadGraphDataLocal`. -/
def edgeData : List VisEdge :=
  edgeList.map localEdgeToVis

/-- The node dataset of `loadGraphDataLocal` after the second pass that
overwrites each node's size with `calculateNodeSize` of its connection
count over the complete edge list. -/
def localNodes (r : ℕ → ℚ) : List VisNode :=
  (nodeData r).map (fun n => { n with size := calculateNodeSize (nodeConnections n.id) })

/-- The pair of vis.js datasets returned by the loaders of
graph-data.js. -/
structure GraphDataSet where
  nodes : List VisNode
  edges : List VisEdge
deriving DecidableEq

/-- `loadGraphDataLocal` from graph-data.js as a function of the
`Math.random` stream: the hard-coded vaccine graph, with node sizes
assigned in a second pass from the connection tally. -/
def loadGraphDataLocal (r : ℕ → ℚ) : GraphDataSet :=
  { nodes := localNodes r, edges := edgeData }

/-- JavaScript `x || d` for an optional number: `undefined` and `0` are
falsy and fall through to the default. -/
def jsOrNum (x : Option ℚ) (d : ℚ) : ℚ :=
  match x with
  | some v => if v = 0 then d else v
  | none => d

/-- JavaScript `x || d` for an optional string: `undefined` and the
empty string are falsy and fall through to the default. -/
def jsOrStr (x : Option String) (d : String) : String :=
  match x with
  | some v => if v = "" then d else v
  | none => d

/-- A node of the wire format delivered by the backend API. -/
structure ApiNode where
  id : String
  label : String
  content : Option String
  group : ℕ
  shape : Option String
  size : Option ℚ
  color : String
  x : Option ℚ
  y : Option ℚ
deriving DecidableEq

/-- An edge of the wire format delivered by the backend API: `source`
and `target` endpoint ids, the similarity, and optional presentation
fields. -/
structure ApiEdge where
  source : String
  target : String
  similarity : ℚ
  width : Option ℚ
  title : Option String
  value : Option ℚ
deriving DecidableEq

/-- The graph payload of the `/graph/full` response. -/
structure ApiGraphData where
  nodes : List ApiNode
  edges : List ApiEdge
deriving DecidableEq

/-- The node mapping of `loadGraphDataFromAPI` in graph-data.js:
defaults `shape` to dot and `size` to 5 through JavaScript `||`. -/
def apiNodeToVis (n : ApiNode) : VisNode :=
  { id := n.id, label := n.label, content := n.content, group := n.group,
    shape := jsOrStr n.shape ("dot"), size := jsOrNum n.size 5,
    color := n.color }

/-- The edge mapping of `loadGraphDataFromAPI` in graph-data.js:
renames `source`/`target` to `from`/`to` and defaults `width`, `title`
and `value` through JavaScript `||`. -/
def apiEdgeToVis (e : ApiEdge) : VisEdge :=
  { «from» := e.source, «to» := e.target,
    width := jsOrNum e.width (e.similarity * 3),
    title := jsOrStr e.title ("Similarity: " ++ toFixed2 e.similarity),
    value := jsOrNum e.value e.similarity }

/-- Outcome of the `fetch`/`json` step of `loadGraphDataFromAPI`: the
network call can reject, the response can be non-OK, the body can fail
to parse into the expected shape, or a graph payload arrives. -/
inductive FetchResult where
  | networkFailure (message : String) : FetchResult
  | httpNotOk (statusText : String) : FetchResult
  | malformedBody : FetchResult
  | ok (graphData : ApiGraphData) : FetchResult

/-- `loadGraphDataFromAPI` from graph-data.js: on success convert the
API graph to the vis.js shape; every failure raised inside the `try`
block is caught and falls back to `loadGraphDataLocal`. -/
def loadGraphDataFromAPI (r : ℕ → ℚ) (res : FetchResult) : GraphDataSet :=
  match res with
  | FetchResult.ok g =>
      { nodes := g.nodes.map apiNodeToVis, edges := g.edges.map apiEdgeToVis }
  | _ => loadGraphDataLocal r

/-- The `dataMode` global of graph-data.js. -/
def dataMode : String := "api"

/-- `loadGraphData` from graph-data.js: dispatch on `dataMode`. -/
def loadGraphData (r : ℕ → ℚ) (res : FetchResult) : GraphDataSet :=
  if dataMode = "api" then loadGraphDataFromAPI r res else loadGraphDataLocal r

/-- A node of the vis.js dataset built by `convertToVisFormat` in
api-client.js, which additionally passes the optional fixed
coordinates through. -/
structure VisNodeXY where
  id : String
  label : String
  content : Option String
  group : ℕ
  shape : String
  size : ℚ
  color : String
  x : Option ℚ
  y : Option ℚ
deriving DecidableEq

/-- The node mapping of `GraphAPIClient.convertToVisFormat` in
api-client.js. -/
def clientNodeToVis (n : ApiNode) : VisNodeXY :=
  { id := n.id, label := n.label, content := n.content, group := n.group,
    shape := jsOrStr n.shape ("dot"), size := jsOrNum n.size 5,
    color := n.color, x := n.x, y := n.y }

/-- The edge mapping of `GraphAPIClient.convertToVisFormat` in
api-client.js (textually the same mapping as in
`loadGraphDataFromAPI`). -/
def clientEdgeToVis (e : ApiEdge) : VisEdge :=
  { «from» := e.source, «to» := e.target,
    width := jsOrNum e.width (e.similarity * 3),
    title := jsOrStr e.title ("Similarity: " ++ toFixed2 e.similarity),
    value := jsOrNum e.value e.similarity }

/-- The pair of vis.js datasets returned by `convertToVisFormat`. -/
structure VisDataSetPair where
  nodes : List VisNodeXY
  edges : List VisEdge
deriving DecidableEq

/-- `GraphAPIClient.convertToVisFormat` from api-client.js. -/
def convertToVisFormat (g : ApiGraphData) : VisDataSetPair :=
  { nodes := g.nodes.map clientNodeToVis, edges := g.edges.map clientEdgeToVis }

/-! Helper lemmas about the filter layer. -/

@[simp]
lemma hideAndSaveLabel_id (n : NodeState) : (hideAndSaveLabel n).id = n.id := by
  unfold hideAndSaveLabel
  split <;> rfl

@[simp]
lemma showAndRestoreLabel_id (n : NodeState) : (showAndRestoreLabel n).id = n.id := by
  unfold showAndRestoreLabel
  split <;> rfl

lemma hideAndSaveLabel_idem (n : NodeState) :
    hideAndSaveLabel (hideAndSaveLabel n) = hideAndSaveLabel n := by
  rcases n with ⟨i, l, h, sl⟩
  cases sl <;> cases l <;> simp [hideAndSaveLabel]

lemma showRestore_hideSave_cycle (n : NodeState) :
    showAndRestoreLabel (hideAndSaveLabel (showAndRestoreLabel (hideAndSaveLabel n))) =
      showAndRestoreLabel (hideAndSaveLabel n) := by
  rcases n with ⟨i, l, h, sl⟩
  cases sl <;> cases l <;> simp [hideAndSaveLabel, showAndRestoreLabel]

lemma showRestore_hideSave_of_clean (n : NodeState)
    (hs : n.savedLabel = none) (hh : n.hidden = false) :
    showAndRestoreLabel (hideAndSaveLabel n) = n := by
  rcases n with ⟨i, l, h, sl⟩
  cases hs
  cases hh
  cases l <;> simp [hideAndSaveLabel, showAndRestoreLabel]

lemma showRestore_of_clean (n : NodeState)
    (hs : n.savedLabel = none) (hh : n.hidden = false) :
    showAndRestoreLabel n = n := by
  rcases n with ⟨i, l, h, sl⟩
  cases hs
  cases hh
  simp [showAndRestoreLabel]

/-- C3: applying `filterHighlight` twice with the same selection of
node ids leaves exactly the state (hidden flags, labels and saved-label
slots, together with `filterActive`) reached after applying it once:
the filter operation is idempotent. -/
theorem c3_filter_idempotent (selected : List String) (s : FilterState)
    (hsel : ∀ x ∈ selected, x ∈ s.nodes.map NodeState.id) :
    filterHighlight selected (filterHighlight selected s) =
      filterHighlight selected s := by
  rcases Nat.eq_zero_or_pos selected.length with hz | hp
  · have hnil : selected = [] := List.length_eq_zero.mp hz
    subst hnil
    by_cases hA : s.filterActive
    · simp [filterHighlight, hA]
    · simp [filterHighlight, hA]
  · have hout : filterHighlight selected s =
        { nodes := s.nodes.map (fun n =>
            if selected.contains n.id then showAndRestoreLabel (hideAndSaveLabel n)
            else hideAndSaveLabel n),
          filterActive := true } := by
      unfold filterHighlight
      rw [if_pos hp]
    rw [hout]
    unfold filterHighlight
    rw [if_pos hp]
    congr 1
    rw [List.map_map]
    refine List.map_congr_left (fun n _ => ?_)
    by_cases hc : n.id ∈ selected
    · simpa [Function.comp_apply, hc] using showRestore_hideSave_cycle n
    · simpa [Function.comp_apply, hc] using hideAndSaveLabel_idem n

/-- Witness for C3 at a concrete two-node state and selection. -/
theorem c3_filter_idempotent_witness :
    (∀ x ∈ ["a"], x ∈
      (FilterState.mk [⟨"a", some "A", false, none⟩, ⟨"b", some "B", false, none⟩]
        false).nodes.map NodeState.id) ∧
    filterHighlight ["a"] (filterHighlight ["a"]
      (FilterState.mk [⟨"a", some "A", false, none⟩, ⟨"b", some "B", false, none⟩]
        false)) =
      filterHighlight ["a"]
        (FilterState.mk [⟨"a", some "A", false, none⟩, ⟨"b", some "B", false, none⟩]
          false) :=
  ⟨by decide, c3_filter_idempotent (["a"])
    (FilterState.mk [⟨"a", some "A", false, none⟩, ⟨"b", some "B", false, none⟩]
      false) (by decide)⟩

/-- C4: starting from a clean presentation state (no saved labels, no
hidden nodes), applying a filter with a non-empty selection and then
calling `filterHighlight` with an empty selection restores every hidden
flag to `false` and every blanked label exactly to its pre-filter
label, and clears `filterActive`: filter-then-clear is a round trip on
the node collection's label and visibility state. -/
theorem c4_filter_clear_roundtrip (selected : List String) (s : FilterState)
    (hne : 0 < selected.length)
    (hsel : ∀ x ∈ selected, x ∈ s.nodes.map NodeState.id)
    (hclean : ∀ n ∈ s.nodes, n.savedLabel = none ∧ n.hidden = false) :
    filterHighlight [] (filterHighlight selected s) =
      { nodes := s.nodes, filterActive := false } := by
  have hout : filterHighlight selected s =
      { nodes := s.nodes.map (fun n =>
          if selected.contains n.id then showAndRestoreLabel (hideAndSaveLabel n)
          else hideAndSaveLabel n),
        filterActive := true } := by
    unfold filterHighlight
    rw [if_pos hne]
  rw [hout]
  have hred : filterHighlight []
      ({ nodes := s.nodes.map (fun n =>
          if selected.contains n.id then showAndRestoreLabel (hideAndSaveLabel n)
          else hideAndSaveLabel n), filterActive := true } : FilterState) =
      { nodes := (s.nodes.map (fun n =>
          if selected.contains n.id then showAndRestoreLabel (hideAndSaveLabel n)
          else hideAndSaveLabel n)).map showAndRestoreLabel,
        filterActive := false } := rfl
  rw [hred]
  congr 1
  rw [List.map_map]
  have hid : ∀ n ∈ s.nodes, (showAndRestoreLabel ∘ fun n =>
      if selected.contains n.id then showAndRestoreLabel (hideAndSaveLabel n)
      else hideAndSaveLabel n) n = id n := by
    intro n hn
    obtain ⟨hs1, hh1⟩ := hclean n hn
    by_cases hc : selected.contains n.id
    · simp only [Function.comp_apply, if_pos hc, id_eq]
      rw [showRestore_hideSave_of_clean n hs1 hh1]
      exact showRestore_of_clean n hs1 hh1
    · simp only [Function.comp_apply, if_neg hc, id_eq]
      exact showRestore_hideSave_of_clean n hs1 hh1
  rw [List.map_congr_left hid, List.map_id]

/-- Witness for C4 at a concrete two-node clean state. -/
theorem c4_filter_clear_roundtrip_witness :
    0 < (["a"] : List String).length ∧
    (∀ x ∈ ["a"], x ∈
      (FilterState.mk [⟨"a", some "A", false, none⟩, ⟨"b", some "B", false, none⟩]
        false).nodes.map NodeState.id) ∧
    filterHighlight [] (filterHighlight ["a"]
      (FilterState.mk [⟨"a", some "A", false, none⟩, ⟨"b", some "B", false, none⟩]
        false)) =
      { nodes := [⟨"a", some "A", false, none⟩, ⟨"b", some "B", false, none⟩],
        filterActive := false } :=
  ⟨by decide, by decide, c4_filter_clear_roundtrip (["a"])
    (FilterState.mk [⟨"a", some "A", false, none⟩, ⟨"b", some "B", false, none⟩]
      false) (by decide) (by decide) (by decide)⟩

/-- C10: calling `filterHighlight` with an empty selection while no
filter is active leaves the whole state unchanged: the clear path is
guarded by `filterActive`. -/
theorem c10_clear_noop (s : FilterState) (h : s.filterActive = false) :
    filterHighlight [] s = s := by
  unfold filterHighlight
  simp [h]

/-- Witness for C10 at a concrete state with an inactive filter. -/
theorem c10_clear_noop_witness :
    (FilterState.mk [⟨"a", some "A", true, some "S"⟩] false).filterActive = false ∧
    filterHighlight [] (FilterState.mk [⟨"a", some "A", true, some "S"⟩] false) =
      FilterState.mk [⟨"a", some "A", true, some "S"⟩] false :=
  ⟨rfl, c10_clear_noop (FilterState.mk [⟨"a", some "A", true, some "S"⟩] false) rfl⟩

/-- C9: whenever the API fetch fails — network rejection, non-OK HTTP
status, or a malformed body — `loadGraphDataFromAPI` (and hence
`loadGraphData` in its shipped `dataMode = "api"` configuration)
returns the hard-coded local vaccine graph, which has 18 nodes and
21 edges, so the caller always receives a populated dataset. -/
theorem c9_api_fallback (r : ℕ → ℚ) (res : FetchResult)
    (h : ∀ g, res ≠ FetchResult.ok g) :
    loadGraphDataFromAPI r res = loadGraphDataLocal r ∧
    loadGraphData r res = loadGraphDataLocal r ∧
    (loadGraphDataLocal r).nodes.length = 18 ∧
    (loadGraphDataLocal r).edges.length = 21 := by
  cases res with
  | ok g => exact absurd rfl (h g)
  | networkFailure m => exact ⟨rfl, rfl, rfl, rfl⟩
  | httpNotOk st => exact ⟨rfl, rfl, rfl, rfl⟩
  | malformedBody => exact ⟨rfl, rfl, rfl, rfl⟩

/-- Witness for C9 at a failed fetch. -/
theorem c9_api_fallback_witness :
    (∀ g, FetchResult.malformedBody ≠ FetchResult.ok g) ∧
    loadGraphDataFromAPI (fun _ => 0) FetchResult.malformedBody =
      loadGraphDataLocal (fun _ => 0) ∧
    (loadGraphDataLocal (fun _ => 0)).nodes.length = 18 :=
  ⟨fun g hg => FetchResult.noConfusion hg,
   (c9_api_fallback (fun _ => 0) FetchResult.malformedBody
     (fun g hg => FetchResult.noConfusion hg)).1,
   (c9_api_fallback (fun _ => 0) FetchResult.malformedBody
     (fun g hg => FetchResult.noConfusion hg)).2.2.1⟩

/-- C1 counterexample: an API edge delivered without an explicit width
and with similarity 0.5 is assigned width 1.5 by both client
conversions, not 0.5 * 5 = 2.5 as the claim states. -/
theorem c1_width_scale_counterexample :
    (apiEdgeToVis ⟨"a", "b", 0.5, none, none, none⟩).width = 1.5 ∧
    (clientEdgeToVis ⟨"a", "b", 0.5, none, none, none⟩).width = 1.5 ∧
    (apiEdgeToVis ⟨"a", "b", 0.5, none, none, none⟩).width ≠
      (⟨"a", "b", 0.5, none, none, none⟩ : ApiEdge).similarity * 5 ∧
    (clientEdgeToVis ⟨"a", "b", 0.5, none, none, none⟩).width ≠
      (⟨"a", "b", 0.5, none, none, none⟩ : ApiEdge).similarity * 5 := by
  refine ⟨?_, ?_, ?_, ?_⟩ <;> norm_num [apiEdgeToVis, clientEdgeToVis, jsOrNum]

/-- C1 amended: for every edge delivered without an explicit width, the
width assigned by the client — in `loadGraphDataFromAPI`, in
`convertToVisFormat`, and likewise in the local builder's edge loop —
equals the edge's similarity multiplied by the scale factor 3 (the
factor 5 appears only in backend documentation, not in this code). -/
theorem c1_width_scale_amended (e : ApiEdge) (he : e.width = none) (le : LocalEdge) :
    (apiEdgeToVis e).width = e.similarity * 3 ∧
    (clientEdgeToVis e).width = e.similarity * 3 ∧
    (localEdgeToVis le).width = le.similarity * 3 := by
  refine ⟨?_, ?_, rfl⟩ <;> simp [apiEdgeToVis, clientEdgeToVis, jsOrNum, he]

/-- Witness for C1 amended at a concrete widthless edge. -/
theorem c1_width_scale_witness :
    (⟨"a", "b", 0.5, none, none, none⟩ : ApiEdge).width = none ∧
    (apiEdgeToVis ⟨"a", "b", 0.5, none, none, none⟩).width =
      (⟨"a", "b", 0.5, none, none, none⟩ : ApiEdge).similarity * 3 ∧
    (localEdgeToVis ⟨"provax1", "provax2", 0.8⟩).width = (0.8 : ℚ) * 3 :=
  ⟨rfl,
   (c1_width_scale_amended ⟨"a", "b", 0.5, none, none, none⟩ rfl
     ⟨"provax1", "provax2", 0.8⟩).1,
   (c1_width_scale_amended ⟨"a", "b", 0.5, none, none, none⟩ rfl
     ⟨"provax1", "provax2", 0.8⟩).2.2⟩

lemma toFixed2_eight : toFixed2 (0.8 : ℚ) = "0.80" := by
  have h : round ((0.8 : ℚ) * 100) = (80 : ℤ) := by
    rw [show ((0.8 : ℚ) * 100) = ((80 : ℤ) : ℚ) by norm_num]
    exact round_intCast 80
  simp only [toFixed2, h]
  rfl

/-- C7 counterexample: an API edge between `provax1` and `provax2` with
similarity 0.8 and no explicit title gets the default tooltip
`Similarity: 0.80` — two decimal places and no endpoint labels — not
the label-bearing three-decimal format the claim states. -/
theorem c7_title_counterexample :
    (apiEdgeToVis ⟨"provax1", "provax2", 0.8, none, none, none⟩).title =
      "Similarity: 0.80" ∧
    (clientEdgeToVis ⟨"provax1", "provax2", 0.8, none, none, none⟩).title =
      "Similarity: 0.80" ∧
    (apiEdgeToVis ⟨"provax1", "provax2", 0.8, none, none, none⟩).title ≠
      "Vaccines save lives ↔ Herd immunity protects everyone\nSimilarity: 0.800" := by
  refine ⟨?_, ?_, ?_⟩ <;>
    simp [apiEdgeToVis, clientEdgeToVis, jsOrStr, toFixed2_eight]

/-- C7 amended: for every edge that arrives without an explicit title,
the default tooltip assigned by `loadGraphDataFromAPI`, by
`convertToVisFormat` and by the local edge loop is
`Similarity: ` followed by the similarity formatted to two decimal
places; it does not mention the endpoint labels. -/
theorem c7_title_amended (e : ApiEdge) (he : e.title = none) (le : LocalEdge) :
    (apiEdgeToVis e).title = "Similarity: " ++ toFixed2 e.similarity ∧
    (clientEdgeToVis e).title = "Similarity: " ++ toFixed2 e.similarity ∧
    (localEdgeToVis le).title = "Similarity: " ++ toFixed2 le.similarity := by
  refine ⟨?_, ?_, rfl⟩ <;> simp [apiEdgeToVis, clientEdgeToVis, jsOrStr, he]

/-- Witness for C7 amended at a concrete titleless edge. -/
theorem c7_title_witness :
    (⟨"provax1", "provax2", 0.8, none, none, none⟩ : ApiEdge).title = none ∧
    (apiEdgeToVis ⟨"provax1", "provax2", 0.8, none, none, none⟩).title =
      "Similarity: " ++ toFixed2 (0.8 : ℚ) :=
  ⟨rfl,
   (c7_title_amended ⟨"provax1", "provax2", 0.8, none, none, none⟩ rfl
     ⟨"provax1", "provax2", 0.8⟩).1⟩

/-- C2 counterexample: the hard-coded local edge list materializes an
edge between `antivax2` and `antivax5` whose similarity 0.23 is below
the default threshold 0.3, and that edge is part of the built edge
dataset, so an edge's existence does not imply
`similarity >= threshold` in the local graph. -/
theorem c2_threshold_counterexample :
    (⟨"antivax2", "antivax5", 0.23⟩ : LocalEdge) ∈ edgeList ∧
    localEdgeToVis ⟨"antivax2", "antivax5", 0.23⟩ ∈ edgeData ∧
    (localEdgeToVis ⟨"antivax2", "antivax5", 0.23⟩).value < 0.3 := by
  have hmem : (⟨"antivax2", "antivax5", 0.23⟩ : LocalEdge) ∈ edgeList := by
    simp [edgeList]
  exact ⟨hmem, List.mem_map_of_mem localEdgeToVis hmem,
    by norm_num [localEdgeToVis]⟩

/-- C2 amended: the local builder does not threshold its hard-coded
edges; every edge's similarity is at least 0.23, and the single edge
below the default threshold 0.3 is the one between `antivax2` and
`antivax5`.  All other edges satisfy `similarity >= 0.3`. -/
theorem c2_threshold_amended (e : LocalEdge) (he : e ∈ edgeList) :
    (0.23 : ℚ) ≤ e.similarity ∧
    (e.similarity < 0.3 → e.«from» = "antivax2" ∧ e.«to» = "antivax5") := by
  fin_cases he <;>
    refine ⟨by norm_num, fun h => ?_⟩ <;>
    first
      | exact ⟨rfl, rfl⟩
      | exact absurd h (by norm_num)

/-- Witness for C2 amended at the first hard-coded edge. -/
theorem c2_threshold_witness :
    (⟨"provax1", "provax2", 0.8⟩ : LocalEdge) ∈ edgeList ∧
    (0.23 : ℚ) ≤ (⟨"provax1", "provax2", 0.8⟩ : LocalEdge).similarity :=
  ⟨by simp [edgeList],
   (c2_threshold_amended ⟨"provax1", "provax2", 0.8⟩ (by simp [edgeList])).1⟩

lemma localNodes_map_id (r : ℕ → ℚ) :
    (localNodes r).map VisNode.id =
      ["provax1", "provax2", "provax3", "provax4", "provax5", "provax6",
       "antivax1", "antivax2", "antivax3", "antivax4", "antivax5", "antivax6",
       "antivax7",
       "hesitancy1", "hesitancy2", "hesitancy3", "hesitancy4", "hesitancy5"] := rfl

/-- C5: in the built local graph, every edge's endpoints are ids of
nodes of the graph, no edge connects a node to itself, and every edge's
similarity lies in the interval from 0 to 1. -/
theorem c5_edge_endpoints_valid (r : ℕ → ℚ) (e : LocalEdge) (he : e ∈ edgeList) :
    e.«from» ∈ (localNodes r).map VisNode.id ∧
    e.«to» ∈ (localNodes r).map VisNode.id ∧
    e.«from» ≠ e.«to» ∧
    0 ≤ e.similarity ∧ e.similarity ≤ 1 := by
  rw [localNodes_map_id]
  fin_cases he <;>
    exact ⟨by decide, by decide, by decide, by norm_num, by norm_num⟩

/-- Witness for C5 at the first hard-coded edge. -/
theorem c5_edge_endpoints_witness :
    (⟨"provax1", "provax2", 0.8⟩ : LocalEdge) ∈ edgeList ∧
    ("provax1" : String) ∈ (localNodes (fun _ => 0)).map VisNode.id ∧
    ("provax1" : String) ≠ "provax2" ∧ (0 : ℚ) ≤ 0.8 ∧ (0.8 : ℚ) ≤ 1 := by
  have h := c5_edge_endpoints_valid (fun _ => 0) ⟨"provax1", "provax2", 0.8⟩
    (by simp [edgeList])
  exact ⟨by simp [edgeList], h.1, h.2.2.1, h.2.2.2.1, h.2.2.2.2⟩

/-- C6: every node of the built local graph has
`size = calculateNodeSize(connections)` where the connection count is
taken over the complete hard-coded edge list (sizing is a second pass
after all edges are known); the size decomposes as the constant base 5
plus a per-connection bonus of 1.5 (so it does not depend on text
length, and in particular is non-decreasing in it), is monotonic
non-decreasing in the degree, and never falls below the positive
floor 5. -/
theorem c6_node_size (r : ℕ → ℚ) (n : VisNode) (hn : n ∈ localNodes r) :
    n.size = calculateNodeSize (nodeConnections n.id) ∧
    n.size = 5 + (nodeConnections n.id : ℚ) * 1.5 ∧
    (5 : ℚ) ≤ n.size ∧ (0 : ℚ) < 5 ∧
    (∀ c d : ℕ, c ≤ d → calculateNodeSize c ≤ calculateNodeSize d) := by
  obtain ⟨m, hm, rfl⟩ := List.mem_map.1 hn
  refine ⟨rfl, rfl, ?_, by norm_num, ?_⟩
  · show (5 : ℚ) ≤ calculateNodeSize (nodeConnections m.id)
    unfold calculateNodeSize
    have hk : (0 : ℚ) ≤ ((nodeConnections m.id : ℕ) : ℚ) := Nat.cast_nonneg _
    nlinarith
  · intro c d h
    unfold calculateNodeSize
    have hcd : ((c : ℕ) : ℚ) ≤ ((d : ℕ) : ℚ) := by exact_mod_cast h
    nlinarith

/-- Witness for C6 at the `provax1` node of the built local graph,
whose 5 connections give size 12.5. -/
theorem c6_node_size_witness :
    ({ id := "provax1", label := "Vaccines save lives",
       content := some
         "Vaccines have been scientifically proven to save millions of lives worldwide",
       group := 1, shape := "dot",
       size := calculateNodeSize (nodeConnections ("provax1")),
       color := "#34A853" } : VisNode) ∈ localNodes (fun _ => 0) ∧
    calculateNodeSize (nodeConnections ("provax1")) = 25 / 2 ∧
    ({ id := "provax1", label := "Vaccines save lives",
       content := some
         "Vaccines have been scientifically proven to save millions of lives worldwide",
       group := 1, shape := "dot",
       size := calculateNodeSize (nodeConnections ("provax1")),
       color := "#34A853" } : VisNode).size =
      calculateNodeSize (nodeConnections ("provax1")) := by
  have hmem : ({ id := "provax1", label := "Vaccines save lives",
                 content := some
                   "Vaccines have been scientifically proven to save millions of lives worldwide",
                 group := 1, shape := "dot",
                 size := calculateNodeSize (nodeConnections ("provax1")),
                 color := "#34A853" } : VisNode) ∈ localNodes (fun _ => 0) := by
    simp [localNodes, nodeData, provaxStatements, antivaxStatements,
      hesitancyStatements, provaxNode, hesitancyNode, antivaxNodes]
  have hconn : nodeConnections ("provax1") = 5 := rfl
  refine ⟨hmem, ?_, (c6_node_size (fun _ => 0) _ hmem).1⟩
  rw [hconn]
  norm_num [calculateNodeSize]

lemma antivaxColor_zero : antivaxColor (fun _ => 0) 0 = "rgb(200, 20, 20)" := by
  unfold antivaxColor
  norm_num
  rfl

lemma antivaxColor_half :
    antivaxColor (fun _ => (2⁻¹ : ℚ)) 0 = "rgb(227, 40, 35)" := by
  have h55 : Int.floor ((2⁻¹ : ℚ) * 55) = 27 := by rw [Int.floor_eq_iff]; norm_num
  have h40 : Int.floor ((2⁻¹ : ℚ) * 40) = 20 := by rw [Int.floor_eq_iff]; norm_num
  have h30 : Int.floor ((2⁻¹ : ℚ) * 30) = 15 := by rw [Int.floor_eq_iff]; norm_num
  unfold antivaxColor
  norm_num [h55, h40, h30]
  rfl

/-- C8 counterexample: the local build is a function of the
`Math.random` stream, and two different streams produce different
colors for the first antivax node (index 6 of the node dataset), so two
runs over the same input items need not produce identical node colors:
the build is not deterministic in the colors of the "erratic" class. -/
theorem c8_determinism_counterexample :
    ((localNodes (fun _ => 0)).map VisNode.color)[6]? = some "rgb(200, 20, 20)" ∧
    ((localNodes (fun _ => (1 / 2 : ℚ))).map VisNode.color)[6]? =
      some "rgb(227, 40, 35)" ∧
    localNodes (fun _ => 0) ≠ localNodes (fun _ => (1 / 2 : ℚ)) := by
  have hA : ((localNodes (fun _ => 0)).map VisNode.color)[6]? =
      some "rgb(200, 20, 20)" := by
    simp [localNodes, nodeData, provaxStatements, antivaxStatements,
      hesitancyStatements, provaxNode, hesitancyNode, antivaxNodes,
      antivaxColor_zero]
  have hB : ((localNodes (fun _ => (1 / 2 : ℚ))).map VisNode.color)[6]? =
      some "rgb(227, 40, 35)" := by
    simp [localNodes, nodeData, provaxStatements, antivaxStatements,
      hesitancyStatements, provaxNode, hesitancyNode, antivaxNodes,
      antivaxColor_half]
  refine ⟨hA, hB, fun heq => ?_⟩
  rw [heq] at hA
  exact absurd (hA.symm.trans hB) (by decide)

/-- C8 amended: the local build is deterministic in everything except
the antivax colors: for any two `Math.random` streams the built node
datasets agree on ids, labels, groups, shapes and sizes, the colors of
all nodes outside group 2 agree, and the edge dataset is identical;
only the group-2 (antivax) colors depend on the random draws. -/
theorem c8_determinism_amended (r1 r2 : ℕ → ℚ) :
    (localNodes r1).map (fun n => (n.id, n.label, n.group, n.shape, n.size)) =
      (localNodes r2).map (fun n => (n.id, n.label, n.group, n.shape, n.size)) ∧
    ((localNodes r1).filter (fun n => n.group != 2)).map VisNode.color =
      ((localNodes r2).filter (fun n => n.group != 2)).map VisNode.color ∧
    (loadGraphDataLocal r1).edges = (loadGraphDataLocal r2).edges :=
  ⟨rfl, rfl, rfl⟩
